import Mathlib

/-!
Shallow embedding of the room state machine of `src/common.js` (quizmas).

The room document lives in a document store keyed by room id; we model the
store content for one room as `Option Room` (`none` = document absent).
Timestamps (`Date.now()`, `serverTimestamp()`) are passed in as explicit
`Int` parameters.  JavaScript objects used as string-keyed maps (`scores`)
are modelled as association lists in insertion order, matching JS object
key order; `scores[k] = v` updates in place when the key exists and appends
otherwise.

A Firestore `updateDoc` with a *plain nested object* value replaces the whole
map field, while a *dotted field path* updates only that nested entry.  The
embedding reproduces this distinction: e.g. `setLiveQuestion` writes the
whole `charades` map (without a `used` key), whereas `startCharades` writes
`charades.used` etc. through dotted paths.  A nested map key that a write
leaves absent is modelled by `Option` (`used : Option (List String)`,
`none` = key absent from the stored map).

Note on `buzz` / `registerTeam` / `changeScore`: in the source each of these
contains the statement
  `await runTransaction,`
  `arrayUnion(db, async (tx) => { ... });`
which is a JavaScript *comma expression*: it evaluates `runTransaction`
(a no-op) and then calls `arrayUnion(db, cb)`, which merely constructs a
field-value sentinel and never invokes the callback `cb`.  So the executed
functions read nothing, write nothing, and resolve successfully.  We embed
both the executed function (`buzz`, `registerTeam`, `changeScore`) and the
transaction callback exactly as written in the source (`buzzTx`,
`registerTeamTx`, `changeScoreTx`), which the surrounding statement never
invokes.
-/

namespace Quizmas

/-- `buzz: { lockedBy, lockedAt }` — both `null` (= `none`) when unlocked. -/
structure Buzz where
  lockedBy : Option String
  lockedAt : Option Int
deriving DecidableEq, Repr

/-- `game: { round, index, reveal }`; `round ∈ {null, "questions", "charades", "hum"}`. -/
structure Game where
  round : Option String
  index : Int
  reveal : Bool
deriving DecidableEq, Repr

/-- Charades sub-state. `used = none` models the `used` key being absent from
the stored map (a whole-map `updateDoc` write can drop it). -/
structure Charades where
  actorTeam : Option String
  person : Option String
  endsAt : Option Int
  running : Bool
  revealed : Bool
  used : Option (List String)
deriving DecidableEq, Repr

/-- Hum-the-tune sub-state, same shape as `Charades` with `hummerTeam`/`song`. -/
structure Hum where
  hummerTeam : Option String
  song : Option String
  endsAt : Option Int
  running : Bool
  revealed : Bool
  used : Option (List String)
deriving DecidableEq, Repr

/-- A pre-authored live question payload; the code only inspects `live?.index`,
the rest is opaque. -/
structure LiveQuestion where
  index : Option Int
  text : String
deriving DecidableEq, Repr

/-- The room document (all top-level fields present, as created by `ensureRoom`). -/
structure Room where
  createdAt : Int
  buzz : Buzz
  teams : List String
  scores : List (String × Int)
  game : Game
  live : Option LiveQuestion
  reveal : Bool
  charades : Charades
  hum : Hum
deriving DecidableEq, Repr

/-- JS object lookup `scores[t]` (`none` = key absent = `undefined`). -/
def getScore (scores : List (String × Int)) (t : String) : Option Int :=
  (scores.find? (fun p => p.1 == t)).map (fun p => p.2)

/-- JS assignment `scores[t] = v`: update in place if the key exists,
append otherwise (JS object insertion order). -/
def setScore (scores : List (String × Int)) (t : String) (v : Int) : List (String × Int) :=
  if scores.any (fun p => p.1 == t) then
    scores.map (fun p => if p.1 == t then (t, v) else p)
  else
    scores ++ [(t, v)]

/-- Firestore `arrayUnion(x)` applied to a possibly-absent array field:
creates `[x]` when the field is absent, appends `x` when not already present. -/
def arrayUnionStr (field : Option (List String)) (x : String) : List String :=
  match field with
  | none => [x]
  | some l => if x ∈ l then l else l ++ [x]

/-- JS truthiness of a nullable string (`null` and `""` are falsy). -/
def truthyStr : Option String → Bool
  | none => false
  | some s => s != ""

/-- Default charades sub-state as written by `ensureRoom` on creation
(and in its migration patch), including `used: []`. -/
def defaultCharades : Charades :=
  { actorTeam := none, person := none, endsAt := none,
    running := false, revealed := false, used := some [] }

/-- Default hum sub-state as written by `ensureRoom`. -/
def defaultHum : Hum :=
  { hummerTeam := none, song := none, endsAt := none,
    running := false, revealed := false, used := some [] }

/-- Default `game` value `{ round: null, index: 0, reveal: false }`. -/
def defaultGame : Game :=
  { round := none, index := 0, reveal := false }

/-- The full default room shape created by `ensureRoom` on a missing document
(`src/common.js` lines 32-68); `createdAt` is the store-assigned server time. -/
def defaultRoom (serverNow : Int) : Room :=
  { createdAt := serverNow
    buzz := { lockedBy := none, lockedAt := none }
    teams := []
    scores := []
    game := defaultGame
    live := none
    reveal := false
    charades := defaultCharades
    hum := defaultHum }

/-- `resetBuzz` (lines 105-110): dotted-path update clearing both buzzer fields. -/
def resetBuzz (r : Room) : Room :=
  { r with buzz := { lockedBy := none, lockedAt := none } }

/-- `buzz` (lines 115-130) **as executed**: the body is the comma expression
`await runTransaction, arrayUnion(db, cb)`, so the transaction callback `cb`
is never invoked; the call touches no state and resolves successfully. -/
def buzz (store : Option Room) (_teamName : String) : Except String (Option Room) :=
  Except.ok store

/-- The transaction callback written inside `buzz` (lines 118-129), which the
comma expression never invokes.  `now` stands for `Date.now()`.  The guard
`if (data?.buzz?.lockedBy) return` is a JS truthiness test. -/
def buzzTx (store : Option Room) (teamName : String) (now : Int) :
    Except String (Option Room) :=
  match store with
  | none => Except.error "Room missing"
  | some data =>
    if truthyStr data.buzz.lockedBy then Except.ok (some data)
    else Except.ok (some { data with
      buzz := { lockedBy := some teamName, lockedAt := some now } })

/-- `registerTeam` (lines 135-152) **as executed**: same comma-expression
pattern, so it is a no-op that resolves successfully. -/
def registerTeam (store : Option Room) (_teamName : String) :
    Except String (Option Room) :=
  Except.ok store

/-- The transaction callback written inside `registerTeam` (lines 139-151),
never invoked by the surrounding statement. -/
def registerTeamTx (store : Option Room) (teamName : String) :
    Except String (Option Room) :=
  match store with
  | none => Except.error "Room missing"
  | some data =>
    let teams := if data.teams.contains teamName then data.teams
                 else data.teams ++ [teamName]
    let scores := if (getScore data.scores teamName).isSome then data.scores
                  else setScore data.scores teamName 0
    Except.ok (some { data with teams := teams, scores := scores })

/-- `changeScore` (lines 157-172) **as executed**: same comma-expression
pattern, so it is a no-op that resolves successfully. -/
def changeScore (store : Option Room) (_teamName : String) (_delta : Int) :
    Except String (Option Room) :=
  Except.ok store

/-- The transaction callback written inside `changeScore` (lines 161-171),
never invoked by the surrounding statement:
`current = Number(scores[t] ?? 0); scores[t] = current + Number(delta)`. -/
def changeScoreTx (store : Option Room) (teamName : String) (delta : Int) :
    Except String (Option Room) :=
  match store with
  | none => Except.error "Room missing"
  | some data =>
    let current : Int := (getScore data.scores teamName).getD 0
    Except.ok (some { data with scores := setScore data.scores teamName (current + delta) })

/-- `setLiveQuestion` (lines 177-191): a single `updateDoc` that writes `live`,
`reveal`, the whole `game` map, the whole `charades` and `hum` maps (each
*without* a `used` key, so the stored `used` entries are dropped), and clears
the buzzer through dotted paths. -/
def setLiveQuestion (r : Room) (live : Option LiveQuestion) : Room :=
  { r with
    live := live
    reveal := false
    game := { round := some "questions"
              index := (live.bind LiveQuestion.index).getD 0
              reveal := false }
    charades := { actorTeam := none, person := none, endsAt := none,
                  running := false, revealed := false, used := none }
    hum := { hummerTeam := none, song := none, endsAt := none,
             running := false, revealed := false, used := none }
    buzz := { lockedBy := none, lockedAt := none } }

/-- `setReveal` (lines 193-195); `!!reveal` coerces to Bool. -/
def setReveal (r : Room) (rv : Bool) : Room :=
  { r with reveal := rv }

/-- `startCharades` (lines 200-226): writes the whole `game` map, clears
`live`/`reveal`, and updates the charades and hum fields through *dotted
paths* — so `charades.used` gets `arrayUnion(person)` and `hum.used` is left
untouched.  `now` stands for `Date.now()`. -/
def startCharades (r : Room) (actorTeam person : String) (seconds : Int) (now : Int) : Room :=
  { r with
    game := { round := some "charades", index := 0, reveal := false }
    live := none
    reveal := false
    charades := { actorTeam := some actorTeam
                  person := some person
                  endsAt := some (now + seconds * 1000)
                  running := true
                  revealed := false
                  used := some (arrayUnionStr r.charades.used person) }
    hum := { r.hum with hummerTeam := none, song := none, endsAt := none,
                        running := false, revealed := false }
    buzz := { lockedBy := none, lockedAt := none } }

/-- `stopCharades` (lines 228-231): dotted-path update of `running`/`endsAt` only. -/
def stopCharades (r : Room) : Room :=
  { r with charades := { r.charades with running := false, endsAt := none } }

/-- `revealCharades` (lines 233-236): dotted-path update of
`revealed`/`running`/`endsAt` only. -/
def revealCharades (r : Room) : Room :=
  { r with charades := { r.charades with revealed := true, running := false, endsAt := none } }

/-- `startHum` (lines 242-263): writes the whole `game` map, clears
`live`/`reveal`, and — unlike `startCharades` — writes the whole `charades`
map and the whole `hum` map as plain nested objects, each *without* a `used`
key: both stored `used` entries are dropped and `song` is not appended
anywhere.  `now` stands for `Date.now()`. -/
def startHum (r : Room) (hummerTeam song : String) (seconds : Int) (now : Int) : Room :=
  { r with
    game := { round := some "hum", index := 0, reveal := false }
    live := none
    reveal := false
    charades := { actorTeam := none, person := none, endsAt := none,
                  running := false, revealed := false, used := none }
    hum := { hummerTeam := some hummerTeam
             song := some song
             endsAt := some (now + seconds * 1000)
             running := true
             revealed := false
             used := none }
    buzz := { lockedBy := none, lockedAt := none } }

/-- `stopHum` (lines 265-268): dotted-path update of `running`/`endsAt` only. -/
def stopHum (r : Room) : Room :=
  { r with hum := { r.hum with running := false, endsAt := none } }

/-- `revealHum` (lines 270-273): dotted-path update of
`revealed`/`running`/`endsAt` only. -/
def revealHum (r : Room) : Room :=
  { r with hum := { r.hum with revealed := true, running := false, endsAt := none } }

/-- `clearStage` (lines 279-301): returns to buzzer-only mode through dotted
paths, so `charades.used` and `hum.used` are preserved. -/
def clearStage (r : Room) : Room :=
  { r with
    live := none
    reveal := false
    game := { round := none, index := 0, reveal := false }
    charades := { r.charades with actorTeam := none, person := none, endsAt := none,
                                  running := false, revealed := false }
    hum := { r.hum with hummerTeam := none, song := none, endsAt := none,
                        running := false, revealed := false }
    buzz := { lockedBy := none, lockedAt := none } }

/-- `resetCharadesPool` (lines 307-309). -/
def resetCharadesPool (r : Room) : Room :=
  { r with charades := { r.charades with used := some [] } }

/-- `resetHumPool` (lines 311-313). -/
def resetHumPool (r : Room) : Room :=
  { r with hum := { r.hum with used := some [] } }

/-!
Stored-document model for `ensureRoom`'s migration path.  A field of an
*existing* (possibly older-schema) document can be missing from the document,
explicitly `null`, or carry a value; `ensureRoom` distinguishes these with
JS truthiness (`!data.teams`: missing or null) for the object/array fields
and with `data.live === undefined` (missing only) for `live`/`reveal`.
-/

/-- A JS document field: missing from the document, explicitly `null`,
or carrying a value. -/
inductive JField (α : Type) where
  | missing : JField α
  | null : JField α
  | val (a : α) : JField α
deriving DecidableEq, Repr

/-- JS truthiness test used by `ensureRoom` on object/array fields
(arrays and objects are always truthy; `null`/`undefined` are falsy). -/
def JField.falsy : JField α → Bool
  | .missing => true
  | .null => true
  | .val _ => false

/-- The `=== undefined` test used by `ensureRoom` on `live`/`reveal`. -/
def JField.isMissing : JField α → Bool
  | .missing => true
  | _ => false

/-- One `if (!data.f) patch.f = dflt` entry of the migration patch. -/
def patchFalsy (f : JField α) (dflt : α) : JField α :=
  if f.falsy then JField.val dflt else f

/-- One `if (data.f === undefined) patch.f = dflt` entry of the migration patch. -/
def patchMissing (f : JField α) (dflt : JField α) : JField α :=
  if f.isMissing then dflt else f

/-- A stored room document of possibly older schema: every top-level field
may be missing, null, or present. -/
structure StoredDoc where
  createdAt : JField Int
  buzz : JField Buzz
  teams : JField (List String)
  scores : JField (List (String × Int))
  game : JField Game
  live : JField LiveQuestion
  reveal : JField Bool
  charades : JField Charades
  hum : JField Hum
deriving DecidableEq, Repr

/-- The full default document written by `ensureRoom` on a missing room. -/
def defaultStoredDoc (serverNow : Int) : StoredDoc :=
  { createdAt := JField.val serverNow
    buzz := JField.val { lockedBy := none, lockedAt := none }
    teams := JField.val []
    scores := JField.val []
    game := JField.val defaultGame
    live := JField.null
    reveal := JField.val false
    charades := JField.val defaultCharades
    hum := JField.val defaultHum }

/-- The existing-document branch of `ensureRoom` (lines 72-92): builds the
patch `{teams?, scores?, game?, live?, reveal?, charades?, hum?}` from the
checks `!data.teams`, `!data.scores`, `!data.game`, `data.live === undefined`,
`data.reveal === undefined`, `!data.charades`, `!data.hum`, and applies it
with `updateDoc` (top-level field replacement).  `createdAt` and `buzz` are
never part of the patch. -/
def ensureRoomExisting (data : StoredDoc) : StoredDoc :=
  { data with
    teams := patchFalsy data.teams []
    scores := patchFalsy data.scores []
    game := patchFalsy data.game defaultGame
    live := patchMissing data.live JField.null
    reveal := patchMissing data.reveal (JField.val false)
    charades := patchFalsy data.charades defaultCharades
    hum := patchFalsy data.hum defaultHum }

/-- Whether the existing-document branch performs a write
(`Object.keys(patch).length` nonzero, line 90). -/
def ensureRoomWrites (data : StoredDoc) : Bool :=
  data.teams.falsy || data.scores.falsy || data.game.falsy ||
  data.live.isMissing || data.reveal.isMissing ||
  data.charades.falsy || data.hum.falsy

/-- `ensureRoom` (lines 27-93): create the full default shape when the
document is missing, otherwise apply the additive migration patch. -/
def ensureRoom (store : Option StoredDoc) (serverNow : Int) : Option StoredDoc :=
  match store with
  | none => some (defaultStoredDoc serverNow)
  | some data => some (ensureRoomExisting data)

/-- The spec invariant relating `scores` and `teams`: every scored team is
registered and every registered team has a score entry. -/
def scoresTeamsInv (r : Room) : Prop :=
  (∀ t ∈ r.scores.map Prod.fst, t ∈ r.teams) ∧
  (∀ t ∈ r.teams, t ∈ r.scores.map Prod.fst)

instance (r : Room) : Decidable (scoresTeamsInv r) :=
  inferInstanceAs (Decidable (_ ∧ _))

/-! Concrete states used to evaluate the operations. -/

/-- A room with one registered team `"Red"` at score 3. -/
def roomRed3 : Room :=
  { defaultRoom 0 with teams := ["Red"], scores := [("Red", 3)] }

/-- The room `roomRed3` after the `registerTeam` callback body would have run
once for `"Red"` on the default room: `teams = ["Red"]`, score 0. -/
def roomRedRegistered : Room :=
  { defaultRoom 0 with teams := ["Red"], scores := [("Red", 0)] }

/-- `roomRed3` with the score moved to 2 (after delta -1). -/
def roomRed2 : Room := { defaultRoom 0 with teams := ["Red"], scores := [("Red", 2)] }

/-- `roomRed3` with the score moved to 4 (the claimed final sum). -/
def roomRed4 : Room := { defaultRoom 0 with teams := ["Red"], scores := [("Red", 4)] }

/-- `roomRed3` with the score moved to 5 (after delta +2). -/
def roomRed5 : Room := { defaultRoom 0 with teams := ["Red"], scores := [("Red", 5)] }

/-- A charades-mode room produced by `startCharades` on the default room:
`game.round = "charades"`, `charades.used = ["Einstein"]`. -/
def roomCharades : Room := startCharades (defaultRoom 0) "Blue" "Einstein" 60 100

/-- A room carrying nonempty used histories in both pools. -/
def roomHistories : Room :=
  { defaultRoom 0 with
    charades := { defaultCharades with used := some ["Einstein"] }
    hum := { defaultHum with used := some ["Jingle Bells"] } }

/-- A sample live question payload. -/
def q0 : LiveQuestion := { index := some 0, text := "What is the capital of Scotland?" }

/-- A stored document written by a schema version predating the `hum` field,
with registered state and a locked buzzer. -/
def preHumDoc : StoredDoc :=
  { createdAt := JField.val 1
    buzz := JField.val { lockedBy := some "Red", lockedAt := some 7 }
    teams := JField.val ["Red"]
    scores := JField.val [("Red", 3)]
    game := JField.val defaultGame
    live := JField.null
    reveal := JField.val false
    charades := JField.val defaultCharades
    hum := JField.missing }

/-! ## Claims -/

/-- C1: the first-buzz-wins contract fails on the code as executed.  On an
existing room with `buzz.lockedBy` absent, the executed `buzz` performs no
write (the comma expression never invokes the transaction callback) and the
lock stays absent, while the callback body as written (`buzzTx`) — which the
claim and the function's own doc comment describe — would have set
`lockedBy = "Red"` and `lockedAt = now`. -/
theorem buzz_comma_expression_never_locks :
    buzz (some (defaultRoom 0)) "Red" = Except.ok (some (defaultRoom 0)) ∧
    (defaultRoom 0).buzz.lockedBy = none ∧
    buzzTx (some (defaultRoom 0)) "Red" 5 =
      Except.ok (some { defaultRoom 0 with
        buzz := { lockedBy := some "Red", lockedAt := some 5 } }) :=
  ⟨rfl, rfl, rfl⟩

/-- C3: on a missing room document, the executed `buzz`, `registerTeam` and
`changeScore` all resolve successfully with no error and no state change —
the comma expression never invokes the transaction callbacks, so the
`throw new Error("Room missing")` inside them is unreachable; only the
never-invoked callback bodies (`buzzTx`, `registerTeamTx`, `changeScoreTx`)
would surface the "Room missing" failure the claim requires. -/
theorem missingRoom_error_never_raised :
    buzz none "Red" = Except.ok none ∧
    registerTeam none "Red" = Except.ok none ∧
    changeScore none "Red" 1 = Except.ok none ∧
    buzzTx none "Red" 0 = Except.error "Room missing" ∧
    registerTeamTx none "Red" = Except.error "Room missing" ∧
    changeScoreTx none "Red" 1 = Except.error "Room missing" := by
  exact ⟨rfl, rfl, rfl, rfl, rfl, rfl⟩

/-- C5: `registerTeam` never registers anything as executed.  Calling it twice
for `"Red"` on the default room leaves the room unchanged, with `"Red"`
absent from `teams` and no score entry, contradicting the claimed
exactly-once registration; the never-invoked callback body
(`registerTeamTx`) would have produced exactly the claimed result
(`teams = ["Red"]` once, score 0, second call a no-op). -/
theorem registerTeam_comma_expression_noop :
    registerTeam (some (defaultRoom 0)) "Red" = Except.ok (some (defaultRoom 0)) ∧
    "Red" ∉ (defaultRoom 0).teams ∧
    getScore (defaultRoom 0).scores "Red" = none ∧
    registerTeamTx (some (defaultRoom 0)) "Red" = Except.ok (some roomRedRegistered) ∧
    registerTeamTx (some roomRedRegistered) "Red" = Except.ok (some roomRedRegistered) ∧
    roomRedRegistered.teams.count "Red" = 1 ∧
    getScore roomRedRegistered.scores "Red" = some 0 := by
  refine ⟨rfl, by decide, rfl, rfl, rfl, by decide, rfl⟩

/-- C6: `changeScore` never writes as executed.  Starting from
`scores["Red"] = 3`, applying delta -1 and then +2 leaves the score at 3,
not the claimed 4 — the comma expression never invokes the transaction
callback; the never-invoked callback body (`changeScoreTx`) would have
produced 4, and in either order of the two deltas. -/
theorem changeScore_comma_expression_noop :
    changeScore (some roomRed3) "Red" (-1) = Except.ok (some roomRed3) ∧
    changeScore (some roomRed3) "Red" 2 = Except.ok (some roomRed3) ∧
    getScore roomRed3.scores "Red" = some 3 ∧
    changeScoreTx (some roomRed3) "Red" (-1) = Except.ok (some roomRed2) ∧
    changeScoreTx (some roomRed2) "Red" 2 = Except.ok (some roomRed4) ∧
    changeScoreTx (some roomRed3) "Red" 2 = Except.ok (some roomRed5) ∧
    changeScoreTx (some roomRed5) "Red" (-1) = Except.ok (some roomRed4) ∧
    getScore roomRed4.scores "Red" = some 4 :=
  ⟨rfl, rfl, rfl, rfl, rfl, rfl, rfl, rfl⟩

/-- C9: `revealCharades` sets `charades.revealed = true`,
`charades.running = false` and `charades.endsAt = none` on every room state
(in particular regardless of the prior `running` value), and touches no
other field: the remaining charades entries and every other room field are
unchanged. -/
theorem revealCharades_effect (r : Room) :
    (revealCharades r).charades.revealed = true ∧
    (revealCharades r).charades.running = false ∧
    (revealCharades r).charades.endsAt = none ∧
    (revealCharades r).charades.actorTeam = r.charades.actorTeam ∧
    (revealCharades r).charades.person = r.charades.person ∧
    (revealCharades r).charades.used = r.charades.used ∧
    (revealCharades r).createdAt = r.createdAt ∧
    (revealCharades r).buzz = r.buzz ∧
    (revealCharades r).teams = r.teams ∧
    (revealCharades r).scores = r.scores ∧
    (revealCharades r).game = r.game ∧
    (revealCharades r).live = r.live ∧
    (revealCharades r).reveal = r.reveal ∧
    (revealCharades r).hum = r.hum :=
  ⟨rfl, rfl, rfl, rfl, rfl, rfl, rfl, rfl, rfl, rfl, rfl, rfl, rfl, rfl⟩

/-- C10: `changeScore` on an existing room modifies only `scores`.  As
executed it modifies nothing at all (the transaction callback never runs),
and the callback body as written (`changeScoreTx`) changes at most the
`scores` field: every other room field of its result equals the input. -/
theorem changeScore_frame (r : Room) (t : String) (d : Int) :
    changeScore (some r) t d = Except.ok (some r) ∧
    (∀ s, changeScoreTx (some r) t d = Except.ok (some s) →
      s.teams = r.teams ∧ s.buzz = r.buzz ∧ s.game = r.game ∧ s.live = r.live ∧
      s.reveal = r.reveal ∧ s.charades = r.charades ∧ s.hum = r.hum ∧
      s.createdAt = r.createdAt) := by
  refine ⟨rfl, ?_⟩
  intro s hs
  simp only [changeScoreTx, Except.ok.injEq, Option.some.injEq] at hs
  subst hs
  exact ⟨rfl, rfl, rfl, rfl, rfl, rfl, rfl, rfl⟩

/-- C10 witness: the frame condition evaluated at a concrete room, team and
delta, with the transaction-callback hypothesis discharged by computation. -/
theorem changeScore_frame_witness :
    changeScore (some roomRed3) "Red" 2 = Except.ok (some roomRed3) ∧
    roomRed5.teams = roomRed3.teams ∧ roomRed5.buzz = roomRed3.buzz := by
  have h := changeScore_frame roomRed3 "Red" 2
  have h2 := h.2 roomRed5 rfl
  exact ⟨h.1, h2.1, h2.2.1⟩

/-- C2 counterexample: on the post-`startCharades` room (round `"charades"`,
`charades.used = ["Einstein"]`), `setLiveQuestion` replaces the whole
`charades` and `hum` maps with objects that have no `used` key, so both
`used` histories are deleted rather than preserved. -/
theorem setLiveQuestion_deletes_used_histories :
    roomCharades.game.round = some "charades" ∧
    roomCharades.charades.used = some ["Einstein"] ∧
    roomCharades.hum.used = some [] ∧
    (setLiveQuestion roomCharades (some q0)).charades.used = none ∧
    (setLiveQuestion roomCharades (some q0)).hum.used = none ∧
    (setLiveQuestion roomCharades (some q0)).charades.used ≠ roomCharades.charades.used ∧
    (setLiveQuestion roomCharades (some q0)).hum.used ≠ roomCharades.hum.used := by
  refine ⟨rfl, by decide, rfl, rfl, rfl, by decide, by decide⟩

/-- C2 (amended): for every room in charades mode with a used person,
`setLiveQuestion` sets `game.round = "questions"` (with the question's
index), sets `live` and `reveal = false`, replaces the `charades` and `hum`
maps with cleared defaults that omit the `used` key (so `charades.running`
becomes `false` but both `used` histories are removed, not preserved),
resets the buzzer, and leaves `teams`, `scores` and `createdAt` unchanged. -/
theorem setLiveQuestion_effect (r : Room) (lq : Option LiveQuestion) (p : String)
    (_hround : r.game.round = some "charades")
    (_hp : p ∈ r.charades.used.getD []) :
    (setLiveQuestion r lq).game = ⟨some "questions", (lq.bind LiveQuestion.index).getD 0, false⟩ ∧
    (setLiveQuestion r lq).live = lq ∧
    (setLiveQuestion r lq).reveal = false ∧
    (setLiveQuestion r lq).charades = ⟨none, none, none, false, false, none⟩ ∧
    (setLiveQuestion r lq).hum = ⟨none, none, none, false, false, none⟩ ∧
    (setLiveQuestion r lq).buzz = ⟨none, none⟩ ∧
    (setLiveQuestion r lq).teams = r.teams ∧
    (setLiveQuestion r lq).scores = r.scores ∧
    (setLiveQuestion r lq).createdAt = r.createdAt :=
  ⟨rfl, rfl, rfl, rfl, rfl, rfl, rfl, rfl, rfl⟩

/-- C2 witness: the amended effect evaluated on the concrete
post-`startCharades` room, with both hypotheses discharged by computation. -/
theorem setLiveQuestion_effect_witness :
    (setLiveQuestion roomCharades (some q0)).game = ⟨some "questions", 0, false⟩ ∧
    (setLiveQuestion roomCharades (some q0)).charades.running = false ∧
    (setLiveQuestion roomCharades (some q0)).teams = roomCharades.teams := by
  have h := setLiveQuestion_effect roomCharades (some q0) "Einstein" rfl (by decide)
  exact ⟨h.1, by rw [h.2.2.2.1], h.2.2.2.2.2.2.1⟩

/-- C4 counterexample: `startHum` is not symmetric to `startCharades`.  On
the same room with nonempty used histories, `startCharades` appends the new
person to `charades.used` and preserves `hum.used` (dotted paths and
`arrayUnion`), whereas `startHum` — writing whole `charades`/`hum` maps with
no `used` keys — deletes `charades.used` (instead of preserving it) and
deletes `hum.used` (instead of appending the song to it). -/
theorem startHum_not_symmetric_to_charades :
    roomHistories.charades.used = some ["Einstein"] ∧
    roomHistories.hum.used = some ["Jingle Bells"] ∧
    (startCharades roomHistories "Blue" "Newton" 60 1000).charades.used =
      some ["Einstein", "Newton"] ∧
    (startCharades roomHistories "Blue" "Newton" 60 1000).hum.used = roomHistories.hum.used ∧
    (startHum roomHistories "Blue" "Silent Night" 60 1000).charades.used = none ∧
    (startHum roomHistories "Blue" "Silent Night" 60 1000).hum.used = none ∧
    (startHum roomHistories "Blue" "Silent Night" 60 1000).charades.used ≠
      roomHistories.charades.used ∧
    (startHum roomHistories "Blue" "Silent Night" 60 1000).hum.used ≠
      some (arrayUnionStr roomHistories.hum.used "Silent Night") := by
  refine ⟨rfl, rfl, by decide, rfl, rfl, rfl, by decide, by decide⟩

/-- C4 (amended): `startHum` sets `game.round = "hum"`, clears `live` and
`reveal`, sets the hum sub-state (`hummerTeam`, `song`,
`endsAt = now + seconds * 1000`, `running = true`, `revealed = false`) as a
whole map without a `used` key — so `song` is *not* appended to `hum.used`
and that history is removed — and likewise replaces the `charades` map with
cleared defaults omitting `used` (removing `charades.used` rather than
preserving it); it resets the buzzer and leaves `teams`, `scores` and
`createdAt` unchanged. -/
theorem startHum_effect (r : Room) (hummerTeam song : String) (seconds now : Int) :
    (startHum r hummerTeam song seconds now).game = ⟨some "hum", 0, false⟩ ∧
    (startHum r hummerTeam song seconds now).live = none ∧
    (startHum r hummerTeam song seconds now).reveal = false ∧
    (startHum r hummerTeam song seconds now).charades = ⟨none, none, none, false, false, none⟩ ∧
    (startHum r hummerTeam song seconds now).hum =
      ⟨some hummerTeam, some song, some (now + seconds * 1000), true, false, none⟩ ∧
    (startHum r hummerTeam song seconds now).buzz = ⟨none, none⟩ ∧
    (startHum r hummerTeam song seconds now).teams = r.teams ∧
    (startHum r hummerTeam song seconds now).scores = r.scores ∧
    (startHum r hummerTeam song seconds now).createdAt = r.createdAt :=
  ⟨rfl, rfl, rfl, rfl, rfl, rfl, rfl, rfl, rfl⟩

/-! Helper lemmas about the `ensureRoom` migration patch entries. -/

theorem patchFalsy_val {α : Type} (x dflt : α) :
    patchFalsy (JField.val x) dflt = JField.val x := rfl

theorem patchFalsy_absent {α : Type} (f : JField α) (dflt : α) (h : f.falsy = true) :
    patchFalsy f dflt = JField.val dflt := by
  unfold patchFalsy
  rw [h]
  rfl

theorem patchFalsy_not_falsy {α : Type} (f : JField α) (dflt : α) :
    (patchFalsy f dflt).falsy = false := by
  cases f <;> rfl

theorem patchFalsy_idem {α : Type} (f : JField α) (dflt : α) :
    patchFalsy (patchFalsy f dflt) dflt = patchFalsy f dflt := by
  cases f <;> rfl

theorem patchMissing_val {α : Type} (f : JField α) (dflt : JField α)
    (h : f ≠ JField.missing) : patchMissing f dflt = f := by
  cases f with
  | missing => exact absurd rfl h
  | null => rfl
  | val a => rfl

theorem patchMissing_null_idem {α : Type} (f : JField α) :
    patchMissing (patchMissing f (JField.null : JField α)) JField.null =
      patchMissing f JField.null := by
  cases f <;> rfl

theorem patchMissing_valfalse_idem (f : JField Bool) :
    patchMissing (patchMissing f (JField.val false)) (JField.val false) =
      patchMissing f (JField.val false) := by
  cases f <;> rfl

theorem patchMissing_null_not_missing {α : Type} (f : JField α) :
    (patchMissing f (JField.null : JField α)).isMissing = false := by
  cases f <;> rfl

theorem patchMissing_valfalse_not_missing (f : JField Bool) :
    (patchMissing f (JField.val false)).isMissing = false := by
  cases f <;> rfl

/-- Applying the existing-document migration twice equals applying it once. -/
theorem ensureRoomExisting_idem (d : StoredDoc) :
    ensureRoomExisting (ensureRoomExisting d) = ensureRoomExisting d := by
  rcases d with ⟨ca, bz, tm, sc, gm, lv, rv, ch, hm⟩
  simp only [ensureRoomExisting, patchFalsy_idem, patchMissing_null_idem,
    patchMissing_valfalse_idem]

/-- After one migration pass the computed patch is empty: no second write. -/
theorem ensureRoomExisting_writes_false (d : StoredDoc) :
    ensureRoomWrites (ensureRoomExisting d) = false := by
  rcases d with ⟨ca, bz, tm, sc, gm, lv, rv, ch, hm⟩
  simp only [ensureRoomWrites, ensureRoomExisting, patchFalsy_not_falsy,
    patchMissing_null_not_missing, patchMissing_valfalse_not_missing,
    Bool.or_self, Bool.or_false, Bool.false_or]

/-- C7: `ensureRoom` is an additive, idempotent migration.  On a missing
document it creates the full default shape.  On an existing document it
never touches `createdAt` or `buzz`, leaves every field that carries a value
unchanged (and `live`/`reveal` whenever they are present at all, even as
`null`), adds the default `hum` sub-object when `hum` is missing, and a
second application changes nothing and computes an empty patch (no write). -/
theorem ensureRoom_additive_migration :
    (∀ t, ensureRoom none t = some (defaultStoredDoc t)) ∧
    (∀ d : StoredDoc,
      (ensureRoomExisting d).createdAt = d.createdAt ∧
      (ensureRoomExisting d).buzz = d.buzz ∧
      (∀ x, d.teams = JField.val x → (ensureRoomExisting d).teams = JField.val x) ∧
      (∀ x, d.scores = JField.val x → (ensureRoomExisting d).scores = JField.val x) ∧
      (∀ x, d.game = JField.val x → (ensureRoomExisting d).game = JField.val x) ∧
      (∀ x, d.charades = JField.val x → (ensureRoomExisting d).charades = JField.val x) ∧
      (∀ x, d.hum = JField.val x → (ensureRoomExisting d).hum = JField.val x) ∧
      (d.live ≠ JField.missing → (ensureRoomExisting d).live = d.live) ∧
      (d.reveal ≠ JField.missing → (ensureRoomExisting d).reveal = d.reveal) ∧
      (d.hum = JField.missing → (ensureRoomExisting d).hum = JField.val defaultHum) ∧
      ensureRoomExisting (ensureRoomExisting d) = ensureRoomExisting d ∧
      ensureRoomWrites (ensureRoomExisting d) = false) := by
  constructor
  · intro t
    rfl
  · intro d
    refine ⟨rfl, rfl, ?_, ?_, ?_, ?_, ?_, ?_, ?_, ?_,
      ensureRoomExisting_idem d, ensureRoomExisting_writes_false d⟩
    · intro x hx
      show patchFalsy d.teams [] = JField.val x
      rw [hx, patchFalsy_val]
    · intro x hx
      show patchFalsy d.scores [] = JField.val x
      rw [hx, patchFalsy_val]
    · intro x hx
      show patchFalsy d.game defaultGame = JField.val x
      rw [hx, patchFalsy_val]
    · intro x hx
      show patchFalsy d.charades defaultCharades = JField.val x
      rw [hx, patchFalsy_val]
    · intro x hx
      show patchFalsy d.hum defaultHum = JField.val x
      rw [hx, patchFalsy_val]
    · intro hl
      exact patchMissing_val d.live JField.null hl
    · intro hr
      exact patchMissing_val d.reveal (JField.val false) hr
    · intro hh
      show patchFalsy d.hum defaultHum = JField.val defaultHum
      rw [hh]
      exact patchFalsy_absent JField.missing defaultHum rfl

/-- C7 witness: a document predating the `hum` field (with `teams`, `scores`
and a locked `buzz` present) gains only the default `hum` sub-object;
its pre-existing state is untouched. -/
theorem ensureRoom_additive_migration_witness :
    (ensureRoomExisting preHumDoc).teams = JField.val ["Red"] ∧
    (ensureRoomExisting preHumDoc).scores = JField.val [("Red", 3)] ∧
    (ensureRoomExisting preHumDoc).buzz =
      JField.val { lockedBy := some "Red", lockedAt := some 7 } ∧
    (ensureRoomExisting preHumDoc).hum = JField.val defaultHum := by
  have h := ensureRoom_additive_migration
  obtain ⟨-, h2⟩ := h
  obtain ⟨hca, hbz, ht, hs, hg, hch, hh, hl, hr, hhm, hid, hw⟩ := h2 preHumDoc
  exact ⟨ht _ rfl, hs _ rfl, hbz.trans rfl, hhm rfl⟩

/-- If two rooms agree on `teams` and `scores`, the invariant transfers. -/
theorem scoresTeamsInv_congr {r s : Room} (h1 : s.teams = r.teams)
    (h2 : s.scores = r.scores) (h : scoresTeamsInv r) : scoresTeamsInv s := by
  unfold scoresTeamsInv at h ⊢
  rw [h1, h2]
  exact h

/-- C8: the keys of `scores` and the members of `teams` coincide in the
default room state, and every operation of the core preserves this: the
stage operations never touch `teams`/`scores`, and `buzz`, `registerTeam`
and `changeScore` (including `changeScore` for a team name not in `teams`)
as executed return the store unchanged, so any room they yield still
satisfies the invariant. -/
theorem scores_teams_invariant :
    (∀ t, scoresTeamsInv (defaultRoom t)) ∧
    (∀ r, scoresTeamsInv r →
      scoresTeamsInv (resetBuzz r) ∧
      (∀ lq, scoresTeamsInv (setLiveQuestion r lq)) ∧
      (∀ b, scoresTeamsInv (setReveal r b)) ∧
      (∀ a p s n, scoresTeamsInv (startCharades r a p s n)) ∧
      scoresTeamsInv (stopCharades r) ∧
      scoresTeamsInv (revealCharades r) ∧
      (∀ hm sg s n, scoresTeamsInv (startHum r hm sg s n)) ∧
      scoresTeamsInv (stopHum r) ∧
      scoresTeamsInv (revealHum r) ∧
      scoresTeamsInv (clearStage r) ∧
      scoresTeamsInv (resetCharadesPool r) ∧
      scoresTeamsInv (resetHumPool r) ∧
      (∀ t s, buzz (some r) t = Except.ok (some s) → scoresTeamsInv s) ∧
      (∀ t s, registerTeam (some r) t = Except.ok (some s) → scoresTeamsInv s) ∧
      (∀ t d s, changeScore (some r) t d = Except.ok (some s) → scoresTeamsInv s)) := by
  constructor
  · intro t
    exact ⟨fun x hx => absurd hx (List.not_mem_nil x),
           fun x hx => absurd hx (List.not_mem_nil x)⟩
  · intro r hinv
    refine ⟨scoresTeamsInv_congr rfl rfl hinv,
      fun lq => scoresTeamsInv_congr rfl rfl hinv,
      fun b => scoresTeamsInv_congr rfl rfl hinv,
      fun a p s n => scoresTeamsInv_congr rfl rfl hinv,
      scoresTeamsInv_congr rfl rfl hinv,
      scoresTeamsInv_congr rfl rfl hinv,
      fun hm sg s n => scoresTeamsInv_congr rfl rfl hinv,
      scoresTeamsInv_congr rfl rfl hinv,
      scoresTeamsInv_congr rfl rfl hinv,
      scoresTeamsInv_congr rfl rfl hinv,
      scoresTeamsInv_congr rfl rfl hinv,
      scoresTeamsInv_congr rfl rfl hinv,
      ?_, ?_, ?_⟩
    · intro t s hs
      exact (Option.some.inj (Except.ok.inj hs)) ▸ hinv
    · intro t s hs
      exact (Option.some.inj (Except.ok.inj hs)) ▸ hinv
    · intro t d s hs
      exact (Option.some.inj (Except.ok.inj hs)) ▸ hinv

/-- C8 witness: the invariant evaluated on a concrete room with one scored
team, before and after a buzzer reset. -/
theorem scores_teams_invariant_witness : scoresTeamsInv (resetBuzz roomRed3) := by
  have h := scores_teams_invariant
  exact (h.2 roomRed3 (by decide)).1

end Quizmas
